import Mathlib

/-!
Verification of the FLIP-PATASHALA auxiliary analytics services.

Shallow embedding of the Python sources:
* `src/python/quiz_evaluator.py`   — `calculate_score`, `analyze_misconceptions`
* `src/python/quiz_generator.py`   — `adapt_difficulty`
* `src/python/ai_service/app.py`   — `cluster_departments`
* `src/python/ai_tip_service/tip_generator.py` — `_generate_rule_based_tips`
* `src/python/sync_content_access.py` — `sync_content_access`

Python dictionaries with possibly-missing keys are modelled by structures
with `Option` fields (`none` = key absent); JSON answer values are an
`Int`/`String` sum; a raised `KeyError` is modelled by `Except.error`.
Floats are modelled by `ℚ` (exact thresholds and counts) or by `ℝ` where a
square root occurs (z-score standardisation).
-/

namespace QuizEval

/-- A student answer as delivered by JSON: an option index or free text
(`quiz_evaluator.py`: `isinstance(answer, int)` / `isinstance(answer, str)`). -/
inductive Ans where
  | aint : Int → Ans
  | astr : String → Ans
deriving DecidableEq, Repr

/-- A question dict; every key may be absent (`none`).  Mirrors the keys read
by `quiz_evaluator.py`: `type`, `question`, `options`, `correctIndex`,
`correctAnswer`, `explanation`. -/
structure Question where
  type : Option String
  question : Option String
  options : Option (List String)
  correctIndex : Option Int
  correctAnswer : Option String
  explanation : Option String
deriving DecidableEq, Repr

/-- ASCII whitespace stripped by Python `str.strip()`. -/
def pyIsSpace (c : Char) : Bool :=
  c == ' ' || c == '\t' || c == '\n' || c == '\x0d' || c == '\x0b' || c == '\x0c'

/-- Python `str.strip()`: drop whitespace from both ends. -/
def pyStrip (s : String) : String :=
  String.mk (((s.toList.dropWhile pyIsSpace).reverse.dropWhile pyIsSpace).reverse)

/-- Python `str.lower()` (ASCII case folding). -/
def pyLower (s : String) : String :=
  String.mk (s.toList.map Char.toLower)

/-- `quiz_evaluator.py` lines 57-63: `strip()` then `lower()` both strings,
then equality or substring containment (`in`) in either direction. -/
def shortAnswerMatch (answer correct : String) : Bool :=
  let student_ans := pyLower (pyStrip answer)
  let correct_ans := pyLower (pyStrip correct)
  student_ans == correct_ans
    || decide (correct_ans.toList <:+: student_ans.toList)
    || decide (student_ans.toList <:+: correct_ans.toList)

/-- The per-pair correctness test shared by `calculate_score` and
`analyze_misconceptions` (`quiz_evaluator.py` lines 47-64 and 87-127).
A missing `type` key defaults to `"mcq"` (`question.get("type", "mcq")`). -/
def isCorrect (answer : Ans) (q : Question) : Bool :=
  let question_type := q.type.getD "mcq"
  if question_type = "mcq" ∨ question_type = "true_false" then
    match answer, q.correctIndex with
    | .aint n, some ci => n == ci
    | _, _ => false
  else if question_type = "short_answer" then
    match q.correctAnswer, answer with
    | some ca, .astr s => shortAnswerMatch s ca
    | _, _ => false
  else false

/-- The counting loop of `calculate_score` (lines 42-64): enumerate answers,
`break` once the question list is exhausted, add 1 per correct pair. -/
def scoreCount : List Ans → List Question → Nat
  | [], _ => 0
  | _, [] => 0
  | a :: arest, q :: qrest => (if isCorrect a q then 1 else 0) + scoreCount arest qrest

/-- `calculate_score` (`quiz_evaluator.py` lines 25-67): 0.0 when either list
is empty, else correct count divided by the number of questions. -/
def calculate_score (student_answers : List Ans) (quiz_questions : List Question) : ℚ :=
  if student_answers = [] ∨ quiz_questions = [] then 0
  else (scoreCount student_answers quiz_questions : ℚ) / (quiz_questions.length : ℚ)

/-- A misconception record (`quiz_evaluator.py` lines 111-118 and 130-137). -/
structure Misconception where
  questionIndex : Nat
  questionType : String
  question : String
  studentAnswer : String
  correctAnswer : String
  explanation : String
deriving DecidableEq, Repr

/-- One loop iteration of `analyze_misconceptions` (lines 86-137) for the
pair at index `i`.  `Except.error` models the `KeyError` raised by the raw
subscript accesses `question["options"]`, `question["question"]`,
`question["explanation"]` performed only when a misconception is emitted;
the evaluation order of the Python code is preserved (the options lookup for
`student_answer_text` happens before the record literal is built). -/
def emitStep (i : Nat) (answer : Ans) (q : Question) : Except String (Option Misconception) :=
  let question_type := q.type.getD "mcq"
  if question_type = "mcq" ∨ question_type = "true_false" then
    match answer, q.correctIndex with
    | .aint n, some ci =>
      if n = ci then .ok none
      else
        match q.options with
        | none => .error "KeyError: options"
        | some opts =>
          let student_answer_text :=
            if 0 ≤ n ∧ n < (opts.length : Int) then opts.getD n.toNat "No answer" else "No answer"
          let correct_answer_text :=
            if 0 ≤ ci ∧ ci < (opts.length : Int) then opts.getD ci.toNat "Unknown" else "Unknown"
          match q.question with
          | none => .error "KeyError: question"
          | some qtext =>
            match q.explanation with
            | none => .error "KeyError: explanation"
            | some ex =>
              .ok (some ⟨i, question_type, qtext, student_answer_text, correct_answer_text, ex⟩)
    | _, _ => .ok none
  else if question_type = "short_answer" then
    match q.correctAnswer, answer with
    | some ca, .astr s =>
      if shortAnswerMatch s ca then .ok none
      else
        match q.question with
        | none => .error "KeyError: question"
        | some qtext =>
          match q.explanation with
          | none => .error "KeyError: explanation"
          | some ex => .ok (some ⟨i, question_type, qtext, s, ca, ex⟩)
    | _, _ => .ok none
  else .ok none

/-- The enumeration loop of `analyze_misconceptions` (lines 82-137): stop when
either list runs out, propagate a `KeyError`, collect emitted records in
order. -/
def analyzeLoop (i : Nat) : List Ans → List Question → Except String (List Misconception)
  | [], _ => .ok []
  | _, [] => .ok []
  | a :: arest, q :: qrest =>
    match emitStep i a q with
    | .error e => .error e
    | .ok none => analyzeLoop (i + 1) arest qrest
    | .ok (some m) => (analyzeLoop (i + 1) arest qrest).map (fun ms => m :: ms)

/-- `analyze_misconceptions` (`quiz_evaluator.py` lines 69-139). -/
def analyze_misconceptions (student_answers : List Ans) (quiz_questions : List Question) :
    Except String (List Misconception) :=
  analyzeLoop 0 student_answers quiz_questions

/-- The misconception a successful (non-raising) run emits for the pair at
index `i`, written as a pure function: `none` when no record is produced. -/
def emitPure (i : Nat) (answer : Ans) (q : Question) : Option Misconception :=
  let question_type := q.type.getD "mcq"
  if question_type = "mcq" ∨ question_type = "true_false" then
    match answer, q.correctIndex with
    | .aint n, some ci =>
      if n = ci then none
      else
        let opts := q.options.getD []
        let student_answer_text :=
          if 0 ≤ n ∧ n < (opts.length : Int) then opts.getD n.toNat "No answer" else "No answer"
        let correct_answer_text :=
          if 0 ≤ ci ∧ ci < (opts.length : Int) then opts.getD ci.toNat "Unknown" else "Unknown"
        some ⟨i, question_type, q.question.getD "", student_answer_text, correct_answer_text,
              q.explanation.getD ""⟩
    | _, _ => none
  else if question_type = "short_answer" then
    match q.correctAnswer, answer with
    | some ca, .astr s =>
      if shortAnswerMatch s ca then none
      else some ⟨i, question_type, q.question.getD "", s, ca, q.explanation.getD ""⟩
    | _, _ => none
  else none

/-- The full misconception list of a successful run, phrased over the
index-aligned pairs. -/
def misconAll (student_answers : List Ans) (quiz_questions : List Question) :
    List Misconception :=
  (student_answers.zip quiz_questions).enum.filterMap
    (fun p => emitPure p.1 p.2.1 p.2.2)

/-- Replace a missing `type` key by the explicit default `"mcq"`. -/
def fillType (q : Question) : Question :=
  { q with type := some (q.type.getD "mcq") }

end QuizEval

namespace QuizEval

/-- `misconAll` computed in loop form, index threaded like the Python loop. -/
def misconLoop (i : Nat) : List Ans → List Question → List Misconception
  | [], _ => []
  | _, [] => []
  | a :: arest, q :: qrest =>
    match emitPure i a q with
    | none => misconLoop (i + 1) arest qrest
    | some m => m :: misconLoop (i + 1) arest qrest

/-- First sample question of `quiz_evaluator.main` (mcq). -/
def sampleQ1 : Question :=
  ⟨some "mcq", some "What is the capital of France?",
   some ["Berlin", "Madrid", "Paris", "Rome"], some 2, none,
   some "Paris is the capital city of France."⟩

/-- Second sample question of `quiz_evaluator.main` (true/false). -/
def sampleQ2 : Question :=
  ⟨some "true_false", some "Mars is known as the Red Planet.",
   some ["True", "False"], some 0, none,
   some "Mars is indeed known as the Red Planet due to its reddish appearance."⟩

/-- Third sample question of `quiz_evaluator.main` (short answer). -/
def sampleQ3 : Question :=
  ⟨some "short_answer", some "What is the largest planet in our solar system?",
   some [], none, some "Jupiter",
   some "Jupiter is the largest planet in our solar system."⟩

def sampleQuestions : List Question := [sampleQ1, sampleQ2, sampleQ3]

/-- The sample answers of `quiz_evaluator.main`: two correct, one wrong. -/
def sampleAnswers : List Ans := [.aint 2, .aint 0, .astr "Saturn"]

/-- The single misconception produced on the sample data. -/
def sampleMisconception : Misconception :=
  ⟨2, "short_answer", "What is the largest planet in our solar system?", "Saturn", "Jupiter",
   "Jupiter is the largest planet in our solar system."⟩

/-- An mcq question with all keys present whose pair with a string answer is
judged incorrect by scoring yet produces no misconception. -/
def cexQ : Question := ⟨some "mcq", some "Q?", some ["A", "B"], some 0, none, some "E"⟩

/-- An mcq-by-default question missing the `question` and `explanation` keys. -/
def missQ : Question := ⟨none, none, some ["A", "B"], some 1, none, none⟩

end QuizEval

namespace QuizGen

/-- The ordered difficulty scale of `quiz_generator.adapt_difficulty`. -/
def difficulties : List String := ["Easy", "Medium", "Hard"]

/-- The normalisation prefix of `adapt_difficulty` (lines 465-474): keep an
exact match, otherwise the first case-insensitive match, otherwise default to
`"Medium"`.  The loop over `["Easy", "Medium", "Hard"]` is unrolled. -/
def normalizeDifficulty (current_difficulty : String) : String :=
  if current_difficulty = "Easy" ∨ current_difficulty = "Medium" ∨ current_difficulty = "Hard" then
    current_difficulty
  else if QuizEval.pyLower current_difficulty = "easy" then "Easy"
  else if QuizEval.pyLower current_difficulty = "medium" then "Medium"
  else if QuizEval.pyLower current_difficulty = "hard" then "Hard"
  else "Medium"

/-- `difficulties.index(...)` on a normalised level. -/
def difficultyIndex (d : String) : Nat :=
  if d = "Easy" then 0 else if d = "Medium" then 1 else 2

/-- `adapt_difficulty` (`quiz_generator.py` lines 451-485).  `Nat`
subtraction realises `max(current_idx - 1, 0)`. -/
def adapt_difficulty (score : ℚ) (current_difficulty : String) : String :=
  let current := normalizeDifficulty current_difficulty
  let current_idx := difficultyIndex current
  let next_idx :=
    if score ≥ 85 / 100 then min (current_idx + 1) 2
    else if score ≤ 40 / 100 then current_idx - 1
    else current_idx
  difficulties.getD next_idx "Hard"

/-- The spec's description of `nextDifficulty`, written independently:
case-insensitive position on the ordered scale (default Medium), one step up
clamped at Hard on score ≥ 0.85, one step down clamped at Easy on
score ≤ 0.40, else unchanged. -/
def nextDifficultySpec (score : ℚ) (current : String) : String :=
  let idx :=
    if QuizEval.pyLower current = "easy" then 0
    else if QuizEval.pyLower current = "medium" then 1
    else if QuizEval.pyLower current = "hard" then 2
    else 1
  let idx2 :=
    if score ≥ 85 / 100 then min (idx + 1) 2
    else if score ≤ 40 / 100 then idx - 1
    else idx
  ["Easy", "Medium", "Hard"].getD idx2 "Hard"

end QuizGen

namespace Clustering

/-- One row of `get_department_data` (`ai_service/app.py`): per-department
counts produced by the SQL aggregate query. -/
structure DeptRow where
  id : Int
  name : String
  student_count : Int
  faculty_count : Int
  inactive_users : Int
  pending_verifications : Int
deriving DecidableEq, Repr

/-- The `metrics` sub-dict of a cluster result (`app.py` lines 160-165). -/
structure DeptMetrics where
  student_count : Int
  faculty_count : Int
  inactive_users : Int
  pending_verifications : Int
deriving DecidableEq, Repr

/-- One entry of the `cluster_departments` result list. -/
structure ClusterAssignment where
  department_id : Int
  department_name : String
  cluster : Nat
  group_name : String
  metrics : DeptMetrics
deriving DecidableEq, Repr

def metricsOf (d : DeptRow) : DeptMetrics :=
  ⟨d.student_count, d.faculty_count, d.inactive_users, d.pending_verifications⟩

/-- `df['inactive_ratio']` (`app.py` line 145): inactive users over total
users, the denominator clamped to at least 1. -/
def inactive_ratio (d : DeptRow) : ℚ :=
  (d.inactive_users : ℚ) / ((max 1 (d.student_count + d.faculty_count + d.inactive_users) : Int) : ℚ)

/-- The three feature columns selected at `app.py` line 149:
`student_count`, `faculty_count`, `inactive_ratio`. -/
def featureColumns (dept_data : List DeptRow) : List ℚ × List ℚ × List ℚ :=
  (dept_data.map (fun d => (d.student_count : ℚ)),
   dept_data.map (fun d => (d.faculty_count : ℚ)),
   dept_data.map inactive_ratio)

/-- `features.mean()` for one column (population mean). -/
def colMean (xs : List ℚ) : ℚ := xs.sum / (xs.length : ℚ)

/-- The square of pandas `features.std()` for one column: pandas `std()`
defaults to `ddof=1`, i.e. the SAMPLE variance with denominator `n - 1`. -/
def colSampleVar (xs : List ℚ) : ℚ :=
  (xs.map (fun x => (x - colMean xs) ^ 2)).sum / ((xs.length : ℚ) - 1)

/-- The population variance (denominator `n`), used by the spec's words
"population standard deviation"; pandas does NOT compute this. -/
def colPopVar (xs : List ℚ) : ℚ :=
  (xs.map (fun x => (x - colMean xs) ^ 2)).sum / (xs.length : ℚ)

/-- pandas `features.std()` (ddof=1) for one column, as a real number. -/
noncomputable def colStd (xs : List ℚ) : ℝ := Real.sqrt ((colSampleVar xs : ℚ) : ℝ)

/-- Population standard deviation, for comparison with the spec's words. -/
noncomputable def colPopStd (xs : List ℚ) : ℝ := Real.sqrt ((colPopVar xs : ℚ) : ℝ)

/-- `(features - features.mean()) / std.replace(0, 1)` for one column
(`app.py` lines 168-171).  The float std is 0 exactly when the sample
variance is 0, so `std.replace(0, 1)` is rendered as that test. -/
noncomputable def normalizeColumn (xs : List ℚ) : List ℝ :=
  let m : ℝ := ((colMean xs : ℚ) : ℝ)
  let s : ℝ := if colSampleVar xs = 0 then 1 else colStd xs
  xs.map (fun x => ((x : ℚ) : ℝ) - m) |>.map (fun y => y / s)

/-- The same column normalisation as the spec describes it, with the
POPULATION standard deviation (std 0 replaced by 1). -/
noncomputable def normalizeColumnPop (xs : List ℚ) : List ℝ :=
  let m : ℝ := ((colMean xs : ℚ) : ℝ)
  let s : ℝ := if colPopVar xs = 0 then 1 else colPopStd xs
  xs.map (fun x => ((x : ℚ) : ℝ) - m) |>.map (fun y => y / s)

/-- The normalised 3-column feature matrix handed to `KMeans.fit_predict`. -/
noncomputable def normalizedFeatures (dept_data : List DeptRow) : List (ℝ × ℝ × ℝ) :=
  let cols := featureColumns dept_data
  (normalizeColumn cols.1).zip ((normalizeColumn cols.2.1).zip (normalizeColumn cols.2.2))

/-- Python dict assignment `d[key] = v` on an insertion-ordered dict. -/
def dictSet (l : List (Nat × String)) (key : Nat) (v : String) : List (Nat × String) :=
  if l.any (fun p => p.1 == key) then l.map (fun p => if p.1 = key then (key, v) else p)
  else l ++ [(key, v)]

/-- Python `d.get(key, dflt)` on an insertion-ordered dict. -/
def dictGet (l : List (Nat × String)) (key : Nat) (dflt : String) : String :=
  match l.find? (fun p => p.1 == key) with
  | some p => p.2
  | none => dflt

/-- The cluster ids present in `df['cluster']`, ascending, as produced by
`df.groupby('cluster')` (pandas sorts group keys). -/
def presentClusters (labels : List Nat) : List Nat :=
  (labels.dedup).mergeSort (fun a b => a ≤ b)

/-- `df.groupby('cluster')['student_count'].mean()` for one cluster id. -/
def clusterMeanStudent (dept_data : List DeptRow) (labels : List Nat) (c : Nat) : ℚ :=
  colMean (((dept_data.zip labels).filter (fun p => p.2 == c)).map
    (fun p => (p.1.student_count : ℚ)))

/-- `sorted(cluster_sizes.items(), key=lambda x: x[1], reverse=True)`:
stable sort of (cluster id, mean student count) by mean, descending. -/
def sortedClusters (dept_data : List DeptRow) (labels : List Nat) : List (Nat × ℚ) :=
  ((presentClusters labels).map (fun c => (c, clusterMeanStudent dept_data labels c))).mergeSort
    (fun a b => b.2 ≤ a.2)

/-- The initial `group_descriptions` dict (`app.py` lines 182-186). -/
def defaultDescriptions : List (Nat × String) :=
  [(0, "Large Departments"), (1, "Medium Departments"), (2, "Small Departments")]

/-- The renaming loop over the sorted clusters (`app.py` lines 196-202):
rank 0 is always renamed "Large", rank 1 only when `n_clusters > 1`,
rank 2 only when `n_clusters > 2`. -/
def groupDescriptions (n_clusters : Nat) (sorted : List (Nat × ℚ)) : List (Nat × String) :=
  (sorted.enum).foldl
    (fun acc p =>
      if p.1 = 0 then dictSet acc p.2.1 "Large Departments"
      else if p.1 = 1 ∧ 1 < n_clusters then dictSet acc p.2.1 "Medium Departments"
      else if p.1 = 2 ∧ 2 < n_clusters then dictSet acc p.2.1 "Small Departments"
      else acc)
    defaultDescriptions

/-- `cluster_departments` (`ai_service/app.py` lines 130-224).

On the empty input `pd.DataFrame([])` has no columns, so the very first
column access `df['student_count']` (line 143) raises `KeyError` before the
`len(features) < 2` guard is reached; this is the `.error` branch.  The
scikit-learn call `KMeans(n_clusters, random_state=42).fit_predict` is a
library primitive (out of scope per the spec); it is passed in as the
deterministic labelling oracle `kmeans`. -/
noncomputable def cluster_departments (kmeans : Nat → List (ℝ × ℝ × ℝ) → List Nat)
    (dept_data : List DeptRow) : Except String (List ClusterAssignment) :=
  match dept_data with
  | [] => .error "KeyError: student_count"
  | _ =>
    if dept_data.length < 2 then
      .ok (dept_data.map (fun d => ⟨d.id, d.name, 0, "All Departments", metricsOf d⟩))
    else
      let n_clusters := min 3 dept_data.length
      let labels := kmeans n_clusters (normalizedFeatures dept_data)
      let gd := groupDescriptions n_clusters (sortedClusters dept_data labels)
      .ok ((dept_data.zip labels).map (fun p =>
        ⟨p.1.id, p.1.name, p.2, dictGet gd p.2 ("Group " ++ toString (p.2 + 1)), metricsOf p.1⟩))

/-- A concrete labelling oracle: everything in cluster 0. -/
def kmeansZero : Nat → List (ℝ × ℝ × ℝ) → List Nat := fun _ pts => pts.map (fun _ => 0)

/-- Two departments whose `student_count` column is `[0, 2]` and whose other
feature columns are constant. -/
def deptA : DeptRow := ⟨1, "A", 0, 0, 0, 0⟩

def deptB : DeptRow := ⟨2, "B", 2, 0, 0, 0⟩

end Clustering

namespace Tips

/-- Python `f"{x:.1f}"` modelled on exact rationals: the value rounded to one
decimal digit (CPython's float tie-breaking is not observable in any claim;
only used inside display strings). -/
def fmtScore (q : ℚ) : String :=
  let n : Int := round (q * 10)
  toString (n / 10) ++ "." ++ toString (n % 10).natAbs

/-- `{"name": ..., "score": ...}` entry of the student analysis dict. -/
structure SubjectScore where
  name : String
  score : ℚ
deriving DecidableEq, Repr

/-- `{"name": ..., "average_score": ...}` entry of the faculty analysis dict. -/
structure ChallengingSubject where
  name : String
  average_score : ℚ
deriving DecidableEq, Repr

/-- The analysis dict handed to `_generate_rule_based_tips`
(`tip_generator.py`); absent keys are `none`/`[]` (both falsy in Python,
like an empty string name). -/
structure TipData where
  weakest_subject : Option SubjectScore
  strongest_subject : Option SubjectScore
  most_challenging_subject : Option ChallengingSubject
  struggling_students : List String
  excelling_students : List String
  total_quizzes : Option Int
  total_posts : Option Int
  department_activity : List (String × Int)
deriving DecidableEq, Repr

/-- A tip dict as built by `_generate_rule_based_tips`. -/
structure Tip where
  content : String
  type : String
  priority : Nat
  relevance_score : ℚ
  action_link : String
  context : String
  ui_style : String
deriving DecidableEq, Repr

/-- Python `max(items, key=lambda x: x[1], default=(None, 0))` over the
insertion-ordered dict items: the FIRST maximal entry (ties keep the earlier
one), `none` for an empty dict. -/
def maxByValue (l : List (String × Int)) : Option (String × Int) :=
  match l with
  | [] => none
  | x :: rest => some (rest.foldl (fun best y => if best.2 < y.2 then y else best) x)

/-- Python `min(items, key=lambda x: x[1], default=(None, 0))`: the FIRST
minimal entry, `none` for an empty dict. -/
def minByValue (l : List (String × Int)) : Option (String × Int) :=
  match l with
  | [] => none
  | x :: rest => some (rest.foldl (fun best y => if y.2 < best.2 then y else best) x)

/-- The `user_type == "student"` branch of `_generate_rule_based_tips`
(lines 737-775): optional weakest-subject tip, optional strongest-subject
tip, one unconditional engagement tip. -/
def studentTips (data : TipData) : List Tip :=
  (match data.weakest_subject with
       | some ws =>
         if ws.name ≠ "" then
           [⟨"You might benefit from additional practice with " ++ ws.name ++
              " (current score: " ++ fmtScore ws.score ++
              "%). Try reviewing related content or joining a discussion.",
             "quiz", 4, 9 / 10, "/interactive/content?subject=" ++ ws.name,
             ws.name ++ ";Improvement", "standard"⟩]
         else []
       | none => []) ++
      (match data.strongest_subject with
       | some ss =>
         if ss.name ≠ "" then
           [⟨"Great job on " ++ ss.name ++ " (score: " ++ fmtScore ss.score ++
              "%)! Consider exploring advanced topics or helping classmates in the forum.",
             "quiz", 3, 8 / 10, "/interactive/forum?subject=" ++ ss.name,
             ss.name ++ ";Excellence", "success"⟩]
         else []
       | none => []) ++
  [⟨"Regular participation helps reinforce learning. Try joining a discussion or taking a poll today!",
    "engagement", 2, 7 / 10, "/interactive/forum", "Engagement;Participation", "info"⟩]

/-- The `user_type == "faculty"` branch (lines 777-822): optional
most-challenging-subject, struggling-students and excelling-students tips. -/
def facultyTips (data : TipData) : List Tip :=
  (match data.most_challenging_subject with
       | some cs =>
         if cs.name ≠ "" then
           [⟨"Students are finding " ++ cs.name ++ " challenging (class average: " ++
              fmtScore cs.average_score ++
              "%). Consider creating additional resources or a review session.",
             "class_performance", 4, 9 / 10, "/interactive/faculty/content?subject=" ++ cs.name,
             cs.name ++ ";Teaching;Challenges", "warning"⟩]
         else []
       | none => []) ++
      (if data.struggling_students ≠ [] then
         [⟨toString data.struggling_students.length ++
            " students are scoring below 60%. Consider reaching out to offer additional support.",
           "student_engagement", 5, 95 / 100, "/interactive/faculty/students",
           "Student Support;Intervention", "warning"⟩]
       else []) ++
      (if data.excelling_students ≠ [] then
         [⟨toString data.excelling_students.length ++
            " students are excelling with scores above 85%. Consider offering enrichment activities to maintain engagement.",
           "student_engagement", 3, 8 / 10, "/interactive/faculty/content",
           "Excellence;Enrichment", "success"⟩]
   else [])

/-- The `else` (admin) branch (lines 824-861): one system-health tip, then,
when the department-activity dict is non-empty, a most-active tip and — only
when the least-active count is positive — a least-active warning tip. -/
def adminTips (data : TipData) : List Tip :=
  [⟨"Platform is seeing active engagement with " ++ toString (data.total_quizzes.getD 0) ++
         " quizzes taken and " ++ toString (data.total_posts.getD 0) ++ " forum posts.",
        "system_health", 3, 8 / 10, "/admin/dashboard", "System Health;Engagement", "standard"⟩] ++
      (if data.department_activity ≠ [] then
        (match maxByValue data.department_activity with
         | some ma =>
           if ma.1 ≠ "" then
             [⟨ma.1 ++ " is the most active department with " ++ toString ma.2 ++ " interactions.",
               "department_activity", 2, 7 / 10, "/admin/departments?id=" ++ ma.1,
               ma.1 ++ ";Engagement", "success"⟩]
           else []
         | none => []) ++
        (match minByValue data.department_activity with
         | some la =>
           if la.1 ≠ "" ∧ 0 < la.2 then
             [⟨la.1 ++ " is the least active department with only " ++ toString la.2 ++
                " interactions. Consider promoting engagement.",
               "department_activity", 4, 85 / 100, "/admin/departments?id=" ++ la.1,
               la.1 ++ ";Engagement", "warning"⟩]
           else []
         | none => [])
       else [])

/-- The generic backstop tip (lines 864-872). -/
def genericTip (user_type : String) : Tip :=
  ⟨"Keep using the platform to access more personalized recommendations!",
   "engagement", 1, 6 / 10, "/interactive/" ++ user_type ++ "/dashboard",
   "Engagement;Learning", "info"⟩

/-- `TipGenerator._generate_rule_based_tips` (`tip_generator.py` lines
724-874): deterministic conditional appends per role (any role other than
student/faculty takes the admin branch), one generic backstop tip when fewer
than 3 were produced so far, and a final `tips[:3]`. -/
def generate_rule_based_tips (data : TipData) (user_type : String) : List Tip :=
  let tips : List Tip :=
    if user_type = "student" then studentTips data
    else if user_type = "faculty" then facultyTips data
    else adminTips data
  let tips2 := if tips.length < 3 then tips ++ [genericTip user_type] else tips
  tips2.take 3

/-- An admin analysis dict whose least-active department has 0 interactions. -/
def tipSample : TipData :=
  ⟨none, none, none, [], [], some 12, some 34, [("Science", 0), ("Arts", 0)]⟩

end Tips

namespace Sync

/-- One input record of `sync_content_access`
(`sync_content_access.py`): the fields read via `student.get(...)`;
`none` = key absent, `some ""` = empty value — both falsy in Python. -/
structure StudentRec where
  email : Option String
  student_id : Option String
  department_name : Option String
deriving DecidableEq, Repr

/-- Python truthiness of `student.get(key)`: present and non-empty. -/
def truthy (o : Option String) : Bool := o.getD "" != ""

/-- One entry of `synced_students` (lines 74-79). -/
structure SyncedStudent where
  email : String
  student_id : String
  department_name : String
  subjects_faculty : String
deriving DecidableEq, Repr

/-- One entry of `errors`. -/
structure SyncErr where
  email : String
  reason : String
deriving DecidableEq, Repr

/-- The `summary` sub-dict; `by_department` keeps dict insertion order. -/
structure SyncSummary where
  total : Nat
  synced : Nat
  error : Nat
  by_department : List (String × Nat)
deriving DecidableEq, Repr

/-- The result dict of `sync_content_access`. -/
structure SyncResult where
  success : Bool
  synced_students : List SyncedStudent
  errors : List SyncErr
  summary : SyncSummary
deriving DecidableEq, Repr

/-- Loop state: the mutable pieces updated per record. -/
structure SyncState where
  synced_students : List SyncedStudent
  errors : List SyncErr
  synced : Nat
  error : Nat
  dept_counts : List (String × Nat)
deriving DecidableEq, Repr

/-- `department_counts[department_name] += 1` with defaulting insert
(lines 82-84); Python dicts keep first-insertion order. -/
def bump (counts : List (String × Nat)) (d : String) : List (String × Nat) :=
  if counts.any (fun p => p.1 == d) then
    counts.map (fun p => if p.1 = d then (p.1, p.2 + 1) else p)
  else counts ++ [(d, 1)]

/-- One iteration of the `for student in student_data` loop (lines 50-94).
With typed fields the generic `except` arm (lines 89-94) is unreachable. -/
def syncStep (st : SyncState) (s : StudentRec) : SyncState :=
  if ¬ truthy s.email ∨ ¬ truthy s.student_id then
    ⟨st.synced_students,
     st.errors ++ [⟨if truthy s.email then s.email.getD "" else "N/A",
                    "Missing required fields (email or student_id)"⟩],
     st.synced, st.error + 1, st.dept_counts⟩
  else if ¬ truthy s.department_name then
    ⟨st.synced_students,
     st.errors ++ [⟨s.email.getD "", "No department specified for content access"⟩],
     st.synced, st.error + 1, st.dept_counts⟩
  else
    let d := s.department_name.getD ""
    ⟨st.synced_students ++ [⟨s.email.getD "", s.student_id.getD "", d, d ++ " - All Faculty"⟩],
     st.errors, st.synced + 1, st.error, bump st.dept_counts d⟩

/-- `sync_content_access` (`sync_content_access.py` lines 16-101):
`summary.total` is `len(student_data)` (set before the empty check); the
empty input short-circuits with `success = False` and one error whose
counter is NOT incremented; otherwise the loop runs and `success` stays
`True` even if every record errors. -/
def sync_content_access (student_data : List StudentRec) : SyncResult :=
  if student_data = [] then
    ⟨false, [], [⟨"N/A", "No student data provided"⟩], ⟨student_data.length, 0, 0, []⟩⟩
  else
    let st := student_data.foldl syncStep ⟨[], [], 0, 0, []⟩
    ⟨true, st.synced_students, st.errors, ⟨student_data.length, st.synced, st.error, st.dept_counts⟩⟩

/-- The synced record a single input yields, or `none` when it is skipped. -/
def syncRec? (s : StudentRec) : Option SyncedStudent :=
  if truthy s.email ∧ truthy s.student_id ∧ truthy s.department_name then
    some ⟨s.email.getD "", s.student_id.getD "", s.department_name.getD "",
          s.department_name.getD "" ++ " - All Faculty"⟩
  else none

/-- The error a single input yields, or `none` when it is synced. -/
def errRec? (s : StudentRec) : Option SyncErr :=
  if ¬ truthy s.email ∨ ¬ truthy s.student_id then
    some ⟨if truthy s.email then s.email.getD "" else "N/A",
          "Missing required fields (email or student_id)"⟩
  else if ¬ truthy s.department_name then
    some ⟨s.email.getD "", "No department specified for content access"⟩
  else none

/-- Two demo records: one missing its department, one fully valid. -/
def demoRecs : List StudentRec :=
  [⟨some "a@x.com", some "S1", none⟩, ⟨some "b@x.com", some "S2", some "CS"⟩]

end Sync

namespace QuizEval

theorem scoreCount_eq_countP (arest : List Ans) (qrest : List Question) :
    scoreCount arest qrest = (arest.zip qrest).countP (fun p => isCorrect p.1 p.2) := by
  induction arest generalizing qrest with
  | nil => simp [scoreCount]
  | cons a atail ih =>
    cases qrest with
    | nil => simp [scoreCount]
    | cons q qtail =>
      simp [scoreCount, List.countP_cons, ih]
      by_cases h : isCorrect a q <;> simp [h, Nat.add_comm]

theorem scoreCount_le (arest : List Ans) (qrest : List Question) :
    scoreCount arest qrest ≤ qrest.length := by
  induction arest generalizing qrest with
  | nil => simp [scoreCount]
  | cons a atail ih =>
    cases qrest with
    | nil => simp [scoreCount]
    | cons q qtail =>
      have := ih qtail
      by_cases h : isCorrect a q <;> simp [scoreCount, h] <;> omega

theorem scoreCount_take (arest : List Ans) (qrest : List Question) :
    scoreCount arest qrest = scoreCount (arest.take qrest.length) qrest := by
  induction arest generalizing qrest with
  | nil => simp
  | cons a atail ih =>
    cases qrest with
    | nil => simp [scoreCount]
    | cons q qtail => simp [scoreCount, ih]

end QuizEval

namespace QuizEval

/-- C1: `calculate_score` returns 0.0 when either input list is empty, and
otherwise returns the number of index-aligned pairs judged correct divided by
`len(quiz_questions)`, a value in [0, 1]; answer indices at or beyond
`len(quiz_questions)` are ignored. -/
theorem calculate_score_contract (student_answers : List Ans) (quiz_questions : List Question) :
    (student_answers = [] ∨ quiz_questions = [] → calculate_score student_answers quiz_questions = 0) ∧
    (student_answers ≠ [] → quiz_questions ≠ [] →
      calculate_score student_answers quiz_questions =
        (((student_answers.zip quiz_questions).countP (fun p => isCorrect p.1 p.2) : Nat) : ℚ) /
          (quiz_questions.length : ℚ) ∧
      0 ≤ calculate_score student_answers quiz_questions ∧
      calculate_score student_answers quiz_questions ≤ 1 ∧
      calculate_score student_answers quiz_questions =
        calculate_score (student_answers.take quiz_questions.length) quiz_questions) := by
  constructor
  · intro h
    simp [calculate_score, h]
  · intro ha hq
    have hcond : ¬(student_answers = [] ∨ quiz_questions = []) := by
      simp [ha, hq]
    have hlen : 0 < quiz_questions.length := List.length_pos.mpr hq
    have hlenQ : (0 : ℚ) < (quiz_questions.length : ℚ) := by exact_mod_cast hlen
    have hscore : calculate_score student_answers quiz_questions =
        (scoreCount student_answers quiz_questions : ℚ) / (quiz_questions.length : ℚ) := by
      simp [calculate_score, hcond]
    refine ⟨?_, ?_, ?_, ?_⟩
    · rw [hscore, scoreCount_eq_countP]
    · rw [hscore]
      positivity
    · rw [hscore]
      rw [div_le_one hlenQ]
      exact_mod_cast scoreCount_le student_answers quiz_questions
    · have htake : student_answers.take quiz_questions.length ≠ [] := by
        cases student_answers with
        | nil => exact absurd rfl ha
        | cons a atail =>
          cases quiz_questions with
          | nil => exact absurd rfl hq
          | cons q qtail => simp
      rw [hscore, scoreCount_take]
      simp [calculate_score, ha, hq]

end QuizEval

namespace QuizEval

/-- C4: for a question whose (defaulted) type is mcq or true_false,
`calculate_score` credits the pair iff the answer is an integer exactly equal
to the question's `correctIndex`; a non-integer answer or a missing
`correctIndex` key is never credited. -/
theorem mcq_credit_iff (answer : Ans) (q : Question)
    (h : q.type.getD "mcq" = "mcq" ∨ q.type.getD "mcq" = "true_false") :
    (isCorrect answer q = true ↔ ∃ n : Int, answer = Ans.aint n ∧ q.correctIndex = some n) ∧
    calculate_score [answer] [q] = (if isCorrect answer q then 1 else 0) := by
  constructor
  · simp only [isCorrect]
    rw [if_pos h]
    cases answer with
    | aint n =>
      cases hci : q.correctIndex with
      | none => simp
      | some ci =>
        simp only [beq_iff_eq, Option.some.injEq, Ans.aint.injEq]
        constructor
        · intro hn
          exact ⟨n, rfl, hn.symm⟩
        · rintro ⟨m, rfl, hcm⟩
          exact hcm.symm
    | astr s => simp
  · by_cases hc : isCorrect answer q <;> simp [calculate_score, scoreCount, hc]

set_option maxRecDepth 4000 in
theorem emitStep_ok_eq (i : Nat) (answer : Ans) (q : Question) (o : Option Misconception)
    (h : emitStep i answer q = .ok o) : o = emitPure i answer q := by
  unfold emitStep at h
  unfold emitPure
  repeat' split at h
  all_goals try simp_all
  all_goals
    (by_cases hb1 : q.type.getD "mcq" = "mcq" ∨ q.type.getD "mcq" = "true_false" <;>
     by_cases hb2 : q.type.getD "mcq" = "short_answer" <;>
     try simp_all)
  all_goals (split_ifs <;> (try omega) <;> simp_all)

end QuizEval

namespace QuizEval

theorem misconLoop_eq_filterMap (arest : List Ans) (qrest : List Question) (i : Nat) :
    misconLoop i arest qrest =
      ((arest.zip qrest).enumFrom i).filterMap (fun p => emitPure p.1 p.2.1 p.2.2) := by
  induction arest generalizing qrest i with
  | nil => simp [misconLoop]
  | cons a atail ih =>
    cases qrest with
    | nil => simp [misconLoop]
    | cons q qtail =>
      simp only [List.zip_cons_cons, List.enumFrom, List.filterMap_cons]
      cases hp : emitPure i a q with
      | none => simp [misconLoop, hp, ih, List.zip]
      | some m => simp [misconLoop, hp, ih, List.zip]

theorem analyzeLoop_ok_eq (arest : List Ans) (qrest : List Question) (i : Nat)
    (ms : List Misconception) (h : analyzeLoop i arest qrest = .ok ms) :
    ms = misconLoop i arest qrest := by
  induction arest generalizing qrest i ms with
  | nil =>
    simp [analyzeLoop] at h
    simp [misconLoop, ← h]
  | cons a atail ih =>
    cases qrest with
    | nil =>
      simp [analyzeLoop] at h
      simp [misconLoop, ← h]
    | cons q qtail =>
      unfold analyzeLoop at h
      cases hstep : emitStep i a q with
      | error e => rw [hstep] at h; exact absurd h (by simp)
      | ok o =>
        rw [hstep] at h
        have ho := emitStep_ok_eq i a q o hstep
        cases o with
        | none =>
          simp only at h
          simp [misconLoop, ← ho, ih _ _ _ h]
        | some m =>
          simp only [Except.map] at h
          cases htail : analyzeLoop (i + 1) atail qtail with
          | error e => rw [htail] at h; exact absurd h (by simp)
          | ok mtail =>
            rw [htail] at h
            simp only [Except.ok.injEq] at h
            simp [misconLoop, ← ho, ← h, ih _ _ _ htail]

theorem emitPure_some_not_correct (i : Nat) (answer : Ans) (q : Question)
    (m : Misconception) (hm : emitPure i answer q = some m) : isCorrect answer q = false := by
  unfold emitPure at hm
  unfold isCorrect
  repeat' split at hm
  all_goals simp_all

end QuizEval

namespace QuizEval

/-- C2 (amended): on a successful (non-raising) run, `analyze_misconceptions`
emits exactly the records described by `emitPure` — one per index-aligned pair
that passes the type guard (integer answer with `correctIndex` present for
mcq/true_false, string answer with `correctAnswer` present for short_answer)
and is judged incorrect, with option-list rendering and "No answer"/"Unknown"
fallbacks for mcq/true_false and raw texts for short_answer — and `emitPure`
only ever fires on pairs the shared correctness rule judges incorrect.
Pairs judged incorrect because the guard fails produce no record
(see the counterexample). -/
theorem analyze_misconceptions_contract :
    (∀ (student_answers : List Ans) (quiz_questions : List Question) (ms : List Misconception),
        analyze_misconceptions student_answers quiz_questions = .ok ms →
        ms = misconAll student_answers quiz_questions) ∧
    (∀ (i : Nat) (answer : Ans) (q : Question) (m : Misconception),
        emitPure i answer q = some m → isCorrect answer q = false) := by
  constructor
  · intro sa qq ms h
    rw [analyzeLoop_ok_eq sa qq 0 ms h, misconLoop_eq_filterMap]
    rfl
  · exact fun i a q m hm => emitPure_some_not_correct i a q m hm

/-- C2 witness: the amended contract evaluated on the sample quiz. -/
theorem analyze_misconceptions_contract_witness :
    [sampleMisconception] = misconAll sampleAnswers sampleQuestions ∧
    isCorrect (Ans.astr "Saturn") sampleQ3 = false :=
  ⟨analyze_misconceptions_contract.1 sampleAnswers sampleQuestions [sampleMisconception] (by rfl),
   analyze_misconceptions_contract.2 2 (Ans.astr "Saturn") sampleQ3 sampleMisconception (by rfl)⟩

/-- C2 counterexample: a string answer to an mcq question is judged incorrect
by scoring (score 0) yet `analyze_misconceptions` emits no record for it. -/
theorem analyze_misconceptions_counterexample :
    isCorrect (Ans.astr "B") cexQ = false ∧
    calculate_score [Ans.astr "B"] [cexQ] = 0 ∧
    analyze_misconceptions [Ans.astr "B"] [cexQ] = .ok [] := by
  refine ⟨by decide, ?_, by rfl⟩
  norm_num [calculate_score, show scoreCount [Ans.astr "B"] [cexQ] = 0 by decide]

theorem isCorrect_fillType (answer : Ans) (q : Question) :
    isCorrect answer (fillType q) = isCorrect answer q := by
  cases ht : q.type <;> simp [isCorrect, fillType, ht]

theorem scoreCount_fillType (arest : List Ans) (qrest : List Question) :
    scoreCount arest (qrest.map fillType) = scoreCount arest qrest := by
  induction arest generalizing qrest with
  | nil => simp [scoreCount]
  | cons a atail ih =>
    cases qrest with
    | nil => simp [scoreCount]
    | cons q qtail => simp [scoreCount, isCorrect_fillType, ih]

theorem emitStep_ok_of_keys (i : Nat) (answer : Ans) (q : Question)
    (hq : q.question.isSome) (he : q.explanation.isSome) (ho : q.options.isSome) :
    ∃ o, emitStep i answer q = .ok o := by
  unfold emitStep
  repeat' split
  all_goals try simp_all
  all_goals repeat' split
  all_goals exact ⟨_, rfl⟩

theorem analyzeLoop_ok_of_keys (arest : List Ans) (qrest : List Question) (i : Nat)
    (hk : ∀ q ∈ qrest, q.question.isSome ∧ q.explanation.isSome ∧ q.options.isSome) :
    ∃ ms, analyzeLoop i arest qrest = .ok ms := by
  induction arest generalizing qrest i with
  | nil => exact ⟨[], by simp [analyzeLoop]⟩
  | cons a atail ih =>
    cases qrest with
    | nil => exact ⟨[], by simp [analyzeLoop]⟩
    | cons q qtail =>
      obtain ⟨hq, he, ho⟩ := hk q (by simp)
      obtain ⟨o, hstep⟩ := emitStep_ok_of_keys i a q hq he ho
      obtain ⟨mtail, htail⟩ := ih qtail (i + 1) (fun q' hq' => hk q' (by simp [hq']))
      cases o with
      | none => exact ⟨mtail, by simp [analyzeLoop, hstep, htail]⟩
      | some m => exact ⟨m :: mtail, by simp [analyzeLoop, hstep, htail, Except.map]⟩

/-- C3 (amended): `calculate_score` tolerates missing keys — a missing `type`
behaves exactly like an explicit `"mcq"`, and the function is total — and
`analyze_misconceptions` returns without raising whenever every question
carries its `question`, `explanation` and `options` keys.  When it must emit
a record for a question missing one of those keys it raises a `KeyError`
instead (see the counterexample). -/
theorem quiz_eval_missing_keys :
    (∀ (student_answers : List Ans) (quiz_questions : List Question),
        calculate_score student_answers (quiz_questions.map fillType) =
          calculate_score student_answers quiz_questions) ∧
    (∀ (student_answers : List Ans) (quiz_questions : List Question),
        (∀ q ∈ quiz_questions, q.question.isSome ∧ q.explanation.isSome ∧ q.options.isSome) →
        ∃ ms, analyze_misconceptions student_answers quiz_questions = .ok ms) := by
  constructor
  · intro sa qq
    unfold calculate_score
    rw [scoreCount_fillType]
    simp [List.map_eq_nil_iff]
  · exact fun sa qq hk => analyzeLoop_ok_of_keys sa qq 0 hk

/-- C3 witness: the amended contract evaluated on the sample quiz. -/
theorem quiz_eval_missing_keys_witness :
    calculate_score sampleAnswers (sampleQuestions.map fillType) =
      calculate_score sampleAnswers sampleQuestions ∧
    ∃ ms, analyze_misconceptions sampleAnswers sampleQuestions = .ok ms :=
  ⟨quiz_eval_missing_keys.1 sampleAnswers sampleQuestions,
   quiz_eval_missing_keys.2 sampleAnswers sampleQuestions (by decide)⟩

/-- C3 counterexample: scoring a question missing `question`/`explanation`
works (no credit, no exception), but `analyze_misconceptions` raises
`KeyError: question` on the same input. -/
theorem analyze_raises_on_missing_question :
    analyze_misconceptions [Ans.aint 0] [missQ] = .error "KeyError: question" ∧
    calculate_score [Ans.aint 0] [missQ] = 0 := by
  refine ⟨by rfl, ?_⟩
  norm_num [calculate_score, show scoreCount [Ans.aint 0] [missQ] = 0 by decide]

/-- C1 witness: the contract evaluated on the sample quiz of `main()`. -/
theorem calculate_score_contract_witness :
    calculate_score sampleAnswers sampleQuestions =
      (((sampleAnswers.zip sampleQuestions).countP (fun p => isCorrect p.1 p.2) : Nat) : ℚ) /
        (sampleQuestions.length : ℚ) :=
  ((calculate_score_contract sampleAnswers sampleQuestions).2 (by decide) (by decide)).1

/-- C4 witness: the mcq crediting rule evaluated on sample question 1. -/
theorem mcq_credit_iff_witness :
    (isCorrect (Ans.aint 2) sampleQ1 = true ↔
      ∃ n : Int, Ans.aint 2 = Ans.aint n ∧ sampleQ1.correctIndex = some n) ∧
    calculate_score [Ans.aint 2] [sampleQ1] = (if isCorrect (Ans.aint 2) sampleQ1 then 1 else 0) :=
  mcq_credit_iff (Ans.aint 2) sampleQ1 (Or.inl (by decide))

end QuizEval

namespace QuizGen

/-- C5: `adapt_difficulty` is a total function agreeing with the spec's
description — `current` matched case-insensitively against the ordered scale
[Easy, Medium, Hard] with unmatched strings defaulting to Medium, one step up
clamped at Hard when score ≥ 0.85, one step down clamped at Easy when
score ≤ 0.40, otherwise unchanged — and its result is always one of
"Easy", "Medium", "Hard". -/
theorem adapt_difficulty_correct (score : ℚ) (current_difficulty : String) :
    adapt_difficulty score current_difficulty = nextDifficultySpec score current_difficulty ∧
    (adapt_difficulty score current_difficulty = "Easy" ∨
     adapt_difficulty score current_difficulty = "Medium" ∨
     adapt_difficulty score current_difficulty = "Hard") := by
  have key : adapt_difficulty score current_difficulty = nextDifficultySpec score current_difficulty := by
    by_cases h1 : current_difficulty = "Easy"
    · subst h1
      simp only [adapt_difficulty, normalizeDifficulty, nextDifficultySpec, difficultyIndex,
        difficulties, show QuizEval.pyLower "Easy" = "easy" from by decide]
      simp
    · by_cases h2 : current_difficulty = "Medium"
      · subst h2
        simp only [adapt_difficulty, normalizeDifficulty, nextDifficultySpec, difficultyIndex,
          difficulties, show QuizEval.pyLower "Medium" = "medium" from by decide]
        simp
      · by_cases h3 : current_difficulty = "Hard"
        · subst h3
          simp only [adapt_difficulty, normalizeDifficulty, nextDifficultySpec, difficultyIndex,
            difficulties, show QuizEval.pyLower "Hard" = "hard" from by decide]
          simp
        · simp only [adapt_difficulty, normalizeDifficulty, nextDifficultySpec, h1, h2, h3,
            or_self, if_false, difficultyIndex, difficulties]
          split_ifs <;> first | rfl | simp_all
  refine ⟨key, ?_⟩
  rw [key]
  unfold nextDifficultySpec
  split_ifs <;> simp [difficulties]

end QuizGen

namespace Clustering

/-- C6 (amended): for exactly one department, `cluster_departments` returns
that department in the single synthetic cluster 0 named "All Departments"
and skips statistical clustering (the labelling oracle is never consulted);
for the empty input, however, it raises a `KeyError` instead of returning an
empty result (see the counterexample). -/
theorem cluster_departments_small (kmeans : Nat → List (ℝ × ℝ × ℝ) → List Nat) (d : DeptRow) :
    cluster_departments kmeans [d] =
      .ok [⟨d.id, d.name, 0, "All Departments", metricsOf d⟩] ∧
    ∃ e, cluster_departments kmeans [] = .error e := by
  exact ⟨rfl, ⟨"KeyError: student_count", rfl⟩⟩

/-- C6 counterexample: on the empty input the `df['student_count']` column
access raises before the `< 2` guard is reached, so no single-cluster result
is returned. -/
theorem cluster_departments_empty_raises :
    cluster_departments kmeansZero [] = .error "KeyError: student_count" := rfl

theorem getD_map_div (xs : List ℚ) (m s : ℝ) (i : Nat) (hi : i < xs.length) :
    ((xs.map (fun x => ((x : ℚ) : ℝ) - m) |>.map (fun y => y / s)).getD i 0) =
      (((xs.getD i 0 : ℚ) : ℝ) - m) / s := by
  rw [List.getD_eq_getElem?_getD, List.getD_eq_getElem?_getD, List.getElem?_map,
    List.getElem?_map, List.getElem?_eq_getElem hi]
  simp

theorem colSampleVar_nonneg (xs : List ℚ) (h2 : 2 ≤ xs.length) : 0 ≤ colSampleVar xs := by
  unfold colSampleVar
  apply div_nonneg
  · apply List.sum_nonneg
    intro x hx
    simp only [List.mem_map] at hx
    obtain ⟨y, _, hy⟩ := hx
    rw [← hy]
    positivity
  · have : (2 : ℚ) ≤ (xs.length : ℚ) := by exact_mod_cast h2
    linarith

/-- C7 (amended): each feature column is z-scored as (x − mean) / d where
`mean` is the column (population) mean and the divisor `d` is never zero:
`d = 1` when the SAMPLE (ddof = 1) variance is zero, and otherwise `d` is the
SAMPLE standard deviation — not the population standard deviation the spec
names (see the counterexample). -/
theorem normalizeColumn_uses_sample_std (xs : List ℚ) (i : Nat)
    (h2 : 2 ≤ xs.length) (hi : i < xs.length) :
    ∃ d : ℝ, d ≠ 0 ∧
      (normalizeColumn xs).getD i 0 = (((xs.getD i 0 : ℚ) : ℝ) - ((colMean xs : ℚ) : ℝ)) / d ∧
      ((colSampleVar xs = 0 ∧ d = 1) ∨ (colSampleVar xs ≠ 0 ∧ d = colStd xs)) := by
  by_cases hv : colSampleVar xs = 0
  · refine ⟨1, one_ne_zero, ?_, Or.inl ⟨hv, rfl⟩⟩
    unfold normalizeColumn
    simp only [hv, if_pos rfl]
    exact getD_map_div xs _ _ i hi
  · have hpos : (0 : ℝ) < ((colSampleVar xs : ℚ) : ℝ) := by
      have h0 := colSampleVar_nonneg xs h2
      have : (0 : ℚ) < colSampleVar xs := lt_of_le_of_ne h0 (Ne.symm hv)
      exact_mod_cast this
    have hstd : colStd xs ≠ 0 := by
      unfold colStd
      positivity
    refine ⟨colStd xs, hstd, ?_, Or.inr ⟨hv, rfl⟩⟩
    unfold normalizeColumn
    simp only [hv, if_neg hv]
    exact getD_map_div xs _ _ i hi

/-- C7 witness: the amended statement evaluated on the column [0, 2]. -/
theorem normalizeColumn_uses_sample_std_witness :
    ∃ d : ℝ, d ≠ 0 ∧
      (normalizeColumn [0, 2]).getD 0 0 =
        ((([0, (2 : ℚ)].getD 0 0 : ℚ) : ℝ) - ((colMean [0, 2] : ℚ) : ℝ)) / d ∧
      ((colSampleVar [0, 2] = 0 ∧ d = 1) ∨ (colSampleVar [0, 2] ≠ 0 ∧ d = colStd [0, 2])) :=
  normalizeColumn_uses_sample_std [0, 2] 0 (by simp) (by simp)

theorem colMean_02 : colMean [0, 2] = 1 := by
  norm_num [colMean]

theorem colSampleVar_02 : colSampleVar [0, 2] = 2 := by
  norm_num [colSampleVar, colMean_02]

theorem colPopVar_02 : colPopVar [0, 2] = 1 := by
  norm_num [colPopVar, colMean_02]

/-- C7 counterexample: on a two-department input with `student_count` column
[0, 2], the code's normalisation (sample std √2) differs from the
population-std normalisation the claim describes (std 1). -/
theorem normalizeColumn_pop_counterexample :
    (featureColumns [deptA, deptB]).1 = [0, 2] ∧
    normalizeColumn [0, 2] ≠ normalizeColumnPop [0, 2] := by
  constructor
  · simp [featureColumns, deptA, deptB]
  · intro hEq
    have hs2 : (1 : ℝ) < Real.sqrt 2 := by
      have h := Real.sqrt_lt_sqrt (by norm_num : (0:ℝ) ≤ 1) (by norm_num : (1:ℝ) < 2)
      simpa using h
    have hs2pos : (0 : ℝ) < Real.sqrt 2 := by linarith
    have h0 : (normalizeColumn [0, 2]).getD 0 0 = (normalizeColumnPop [0, 2]).getD 0 0 := by
      rw [hEq]
    have hL : (normalizeColumn [0, 2]).getD 0 0 = (0 - 1) / Real.sqrt 2 := by
      unfold normalizeColumn
      rw [colSampleVar_02]
      norm_num [colMean_02]
      unfold colStd
      rw [colSampleVar_02]
      norm_num
    have hR : (normalizeColumnPop [0, 2]).getD 0 0 = -1 := by
      unfold normalizeColumnPop
      rw [colPopVar_02]
      norm_num [colMean_02]
      unfold colPopStd
      rw [colPopVar_02]
      norm_num
    rw [hL, hR] at h0
    have hne : Real.sqrt 2 ≠ 0 := ne_of_gt hs2pos
    field_simp at h0
    linarith
end Clustering

namespace Tips

theorem adminTips_no_least_warning (data : TipData) (nm : String)
    (hmin : minByValue data.department_activity = some (nm, 0)) :
    ∀ t ∈ adminTips data, ¬(t.type = "department_activity" ∧ t.ui_style = "warning") := by
  intro t ht hcontra
  unfold adminTips at ht
  rw [hmin] at ht
  simp only [lt_self_iff_false, and_false, if_false, List.append_nil, reduceIte] at ht
  rcases List.mem_append.mp ht with h1 | h2
  · rw [List.mem_singleton] at h1
    subst h1
    simp at hcontra
  · split at h2
    · cases hmax : maxByValue data.department_activity with
      | none => rw [hmax] at h2; simp at h2
      | some ma =>
        simp only [hmax] at h2
        split at h2
        · rw [List.mem_singleton] at h2
          subst h2
          simp at hcontra
        · simp at h2
    · simp at h2

/-- C8: for every analysis dict and every role in {student, faculty, admin},
`_generate_rule_based_tips` returns at most 3 tips, and for the admin role,
when the least-active department of the `department_activity` dict has an
interaction count of 0, no "least active" warning tip (type
`department_activity`, ui_style `warning`) appears in the result. -/
theorem rule_based_tips_bound (data : TipData) (user_type : String)
    (h : user_type = "student" ∨ user_type = "faculty" ∨ user_type = "admin") :
    (generate_rule_based_tips data user_type).length ≤ 3 ∧
    (user_type = "admin" →
      ∀ nm : String, minByValue data.department_activity = some (nm, 0) →
        ∀ t ∈ generate_rule_based_tips data user_type,
          ¬(t.type = "department_activity" ∧ t.ui_style = "warning")) := by
  constructor
  · unfold generate_rule_based_tips
    simp only [List.length_take]
    omega
  · intro hadmin nm hmin t ht hcontra
    subst hadmin
    unfold generate_rule_based_tips at ht
    have ht2 := List.take_subset _ _ ht
    rw [if_neg (show ¬(("admin" : String) = "student") from by decide),
      if_neg (show ¬(("admin" : String) = "faculty") from by decide)] at ht2
    split at ht2
    · rcases List.mem_append.mp ht2 with h1 | h1
      · exact adminTips_no_least_warning data nm hmin t h1 hcontra
      · rw [List.mem_singleton] at h1
        subst h1
        simp [genericTip] at hcontra
    · exact adminTips_no_least_warning data nm hmin t ht2 hcontra

/-- C8 witness: the bound evaluated on an admin dict whose least-active count is 0. -/
theorem rule_based_tips_bound_witness :
    (generate_rule_based_tips tipSample "admin").length ≤ 3 ∧
    ("admin" = "admin" →
      ∀ nm : String, minByValue tipSample.department_activity = some (nm, 0) →
        ∀ t ∈ generate_rule_based_tips tipSample "admin",
          ¬(t.type = "department_activity" ∧ t.ui_style = "warning")) :=
  rule_based_tips_bound tipSample "admin" (Or.inr (Or.inr rfl))

end Tips

namespace Sync

theorem syncFold_spec (l : List StudentRec) (st : SyncState) :
    (l.foldl syncStep st).synced_students = st.synced_students ++ l.filterMap syncRec? ∧
    (l.foldl syncStep st).errors = st.errors ++ l.filterMap errRec? ∧
    (l.foldl syncStep st).synced = st.synced + (l.filterMap syncRec?).length ∧
    (l.foldl syncStep st).error = st.error + (l.filterMap errRec?).length := by
  induction l generalizing st with
  | nil => simp
  | cons s rest ih =>
    obtain ⟨ih1, ih2, ih3, ih4⟩ := ih (syncStep st s)
    cases hE : truthy s.email <;> cases hS : truthy s.student_id <;>
      cases hD : truthy s.department_name <;>
      (simp [syncStep, hE, hS, hD] at ih1 ih2 ih3 ih4
       refine ⟨?_, ?_, ?_, ?_⟩ <;>
         simp [syncStep, syncRec?, errRec?, hE, hS, hD, ih1, ih2, ih3, ih4,
           List.append_assoc] <;>
         omega)

theorem sync_partition (l : List StudentRec) :
    (l.filterMap syncRec?).length + (l.filterMap errRec?).length = l.length := by
  induction l with
  | nil => simp
  | cons s rest ih =>
    cases hE : truthy s.email <;> cases hS : truthy s.student_id <;>
      cases hD : truthy s.department_name <;>
      simp [syncRec?, errRec?, hE, hS, hD, ih] <;> omega

end Sync

namespace Sync

/-- C9: for every non-empty input, `sync_content_access` returns exactly the
per-record synced entries and per-record errors (`filterMap` characterisation
of the loop); a record with email and student id but no department yields no
synced entry and exactly one error whose reason mentions the department; and
`summary.synced + summary.error = summary.total` with
`summary.total = len(student_data)`. -/
theorem sync_content_access_contract (student_data : List StudentRec) (h : student_data ≠ []) :
    (sync_content_access student_data).synced_students = student_data.filterMap syncRec? ∧
    (sync_content_access student_data).errors = student_data.filterMap errRec? ∧
    (sync_content_access student_data).summary.synced +
        (sync_content_access student_data).summary.error =
      (sync_content_access student_data).summary.total ∧
    (sync_content_access student_data).summary.total = student_data.length ∧
    (∀ s ∈ student_data, truthy s.email → truthy s.student_id → ¬ truthy s.department_name →
      syncRec? s = none ∧
      errRec? s = some ⟨s.email.getD "", "No department specified for content access"⟩) := by
  obtain ⟨h1, h2, h3, h4⟩ := syncFold_spec student_data ⟨[], [], 0, 0, []⟩
  have hpart := sync_partition student_data
  refine ⟨?_, ?_, ?_, ?_, ?_⟩
  · simp [sync_content_access, h, h1]
  · simp [sync_content_access, h, h2]
  · simp [sync_content_access, h, h3, h4]
    omega
  · simp [sync_content_access, h]
  · intro s hmem hemail hsid hdept
    have hd : truthy s.department_name = false := by
      cases hval : truthy s.department_name
      · rfl
      · exact absurd hval hdept
    constructor
    · simp [syncRec?, hd]
    · simp [errRec?, hemail, hsid, hd]

/-- C9 witness: the contract evaluated on two demo records. -/
theorem sync_content_access_contract_witness :
    (sync_content_access demoRecs).synced_students = demoRecs.filterMap syncRec? ∧
    (sync_content_access demoRecs).errors = demoRecs.filterMap errRec? ∧
    (sync_content_access demoRecs).summary.synced + (sync_content_access demoRecs).summary.error =
      (sync_content_access demoRecs).summary.total ∧
    (sync_content_access demoRecs).summary.total = demoRecs.length ∧
    (∀ s ∈ demoRecs, truthy s.email → truthy s.student_id → ¬ truthy s.department_name →
      syncRec? s = none ∧
      errRec? s = some ⟨s.email.getD "", "No department specified for content access"⟩) :=
  sync_content_access_contract demoRecs (by decide)

/-- C10: on the empty input `sync_content_access` returns `success = False`
with exactly one error ("No student data provided") while `summary.total`,
`summary.synced` and `summary.error` are all 0 — so the error-list length
differs from `summary.error`, yet `synced + error = total` still holds. -/
theorem sync_empty_behavior :
    sync_content_access [] = ⟨false, [], [⟨"N/A", "No student data provided"⟩], ⟨0, 0, 0, []⟩⟩ ∧
    (sync_content_access []).errors.length = 1 ∧
    (sync_content_access []).errors.length ≠ (sync_content_access []).summary.error ∧
    (sync_content_access []).summary.synced + (sync_content_access []).summary.error =
      (sync_content_access []).summary.total := by
  refine ⟨rfl, rfl, by decide, rfl⟩

end Sync
